import Mathlib

/-!
Shallow embedding of the HELLSPHERE geospatial/orbital intelligence core.

Sources embedded here:
* the per-ground-point API route (TLE parsing, satellite pass search,
  alert filtering, response aggregation, haversine distance);
* the globe store aggregation pipeline (`classifyWeather`, `normalize`,
  `loadHeatmapData`, `loadWeatherCells`, `loadTimeline`, `buildRouteArcs`)
  and the zustand store state transitions (`setTimelineIndex`,
  `setTimeline`, and the remaining setters).

Modelling conventions:
* JavaScript numbers are modelled as `ℚ` wherever the code only performs
  field arithmetic and comparisons; `ℝ` is used for the trigonometric
  haversine distance.  `Number.isFinite` checks are vacuous on `ℚ` and
  noted where they occur in the source.
* Timestamps (`Date`) are modelled as integer milliseconds since epoch;
  `toISOString` is injective on those, so passing the raw milliseconds
  around is faithful.
* The external `satellite.js` propagator (`twoline2satrec`, `propagate`,
  `eciToGeodetic`) is not part of this repository; the functions that call
  it are parameterised over an abstract propagation oracle, and over the
  (floating-point) distance kernel where its exact values do not matter.
* JavaScript `Array.prototype.sort` is stable (ES2019); its observable
  behaviour with a consistent comparator is the unique stable sort, which
  `List.insertionSort` realises, inserting earlier elements before
  later key-equal ones.
-/

namespace Hellsphere

/-! ### JS string primitives

`String.trim` / `split` / `startsWith` / `slice` / `parseInt` are modelled
on the character list underlying the string, structurally recursive so that
concrete inputs evaluate inside the kernel. -/

/-- JS `String.prototype.trim` on a character list: drop leading and
trailing whitespace (this covers `\r`, so splitting on `\n` and trimming
models the source's `split(/\r?\n/)` followed by `trim`). -/
def trimChars (l : List Char) : List Char :=
  ((l.dropWhile Char.isWhitespace).reverse.dropWhile Char.isWhitespace).reverse

/-- Split a character list at newline characters (JS `split("\n")`):
always returns at least one (possibly empty) segment. -/
def splitNl : List Char → List (List Char)
  | [] => [[]]
  | c :: cs =>
    if c = '\n' then [] :: splitNl cs
    else
      match splitNl cs with
      | [] => [[c]]
      | seg :: segs => (c :: seg) :: segs

/-- JS `s.startsWith(pre)` as a character-list prefix test. -/
def jsStartsWith (s pre : String) : Bool :=
  pre.data.isPrefixOf s.data

/-- JS `s.trim()`. -/
def jsTrim (s : String) : String :=
  String.mk (trimChars s.data)

/-- JS `s.slice(a, b)` for `0 ≤ a ≤ b` (the only shape the source uses). -/
def jsSlice (s : String) (a b : ℕ) : String :=
  String.mk ((s.data.drop a).take (b - a))

/-- JS `parseInt(s, 10)`: skip leading whitespace, optional sign, then the
longest digit prefix; `none` models the `NaN` result when no digit is
found. -/
def parseInt10 (s : String) : Option ℤ :=
  let cs := s.data.dropWhile Char.isWhitespace
  let signed : ℤ × List Char :=
    match cs with
    | '-' :: rest => (-1, rest)
    | '+' :: rest => (1, rest)
    | rest => (1, rest)
  let digits := signed.2.takeWhile Char.isDigit
  if digits.isEmpty then none
  else some (signed.1 * (digits.foldl (fun n c => n * 10 + (c.toNat - 48)) 0 : ℕ))

/-- The trimmed, blank-filtered line list the TLE parser starts from:
`tleText.split(/\r?\n/).map(l => l.trim()).filter(Boolean)`. -/
def cleanLines (text : String) : List String :=
  (((splitNl text.data).map trimChars).map String.mk).filter (fun l => l ≠ "")

/-! ### Aggregator data model (globeStore.ts) -/

/-- The `WeatherCell["status"]`. -/
inductive WeatherStatus where
  | clear
  | storm
  | cloudy
  | rain
  | wind
  deriving DecidableEq, Repr

/-- One fetched, normalised meteorological sample (`WeatherObservation`). -/
structure WeatherObservation where
  id : String
  name : String
  latitude : ℚ
  longitude : ℚ
  temperature : ℚ
  precipitation : ℚ
  cloudcover : ℚ
  windspeed : ℚ
  deriving DecidableEq, Repr

/-- The `HeatmapPoint`. -/
structure HeatmapPoint where
  id : String
  name : String
  latitude : ℚ
  longitude : ℚ
  intensity : ℚ
  multipliers : Option (List ℚ) := none
  deriving DecidableEq, Repr

/-- An arc endpoint (`RouteArc["from"]` / `RouteArc["to"]`). -/
structure ArcEndpoint where
  name : String
  latitude : ℚ
  longitude : ℚ
  deriving DecidableEq, Repr

/-- The `RouteArc`. -/
structure RouteArc where
  id : String
  src : ArcEndpoint
  dst : ArcEndpoint
  magnitude : ℚ
  multipliers : Option (List ℚ) := none
  deriving DecidableEq, Repr

/-- The `WeatherCell`. -/
structure WeatherCell where
  id : String
  latitude : ℚ
  longitude : ℚ
  status : WeatherStatus
  severity : ℚ
  multipliers : Option (List ℚ) := none
  deriving DecidableEq, Repr

/-- The three overlay channels (`OverlayKey`). -/
inductive OverlayKey where
  | heatmap
  | routes
  | weather
  deriving DecidableEq, Repr

/-- The overlay multipliers `loadTimeline` writes: all three channels are
present in every event it builds. -/
structure OverlayMultipliers where
  heatmap : ℚ
  weather : ℚ
  routes : ℚ
  deriving DecidableEq, Repr

/-- The `TimelineEvent`; `timestamp` is kept as epoch milliseconds. -/
structure TimelineEvent where
  id : String
  label : String
  description : String
  timestamp : ℤ
  overlayMultipliers : OverlayMultipliers
  deriving DecidableEq, Repr

/-! ### Weather classification and aggregation (globeStore.ts) -/

/-- The `classifyWeather` with the `WEATHER_STATUS_THRESHOLDS` constants
inlined (storm: precipitation 8 / wind 12; rain: precipitation 2;
wind: 12; cloudy: cloudcover 45). -/
def classifyWeather (precipitation windspeed cloudcover : ℚ) : WeatherStatus :=
  if precipitation ≥ 8 ∧ windspeed ≥ 12 then .storm
  else if precipitation ≥ 2 then .rain
  else if windspeed ≥ 12 then .wind
  else if cloudcover ≥ 45 then .cloudy
  else .clear

/-- The `normalize(value, min, max)`.  The source's `!Number.isFinite(value)`
guard is vacuous on `ℚ`. -/
def normalize (value mn mx : ℚ) : ℚ :=
  if mn = mx then 0 else (value - mn) / (mx - mn)

/-- JS `Math.min(...list)` for the nonempty lists the source applies it
to. -/
def listMin : List ℚ → ℚ
  | [] => 0
  | x :: xs => xs.foldl min x

/-- JS `Math.max(...list)` for nonempty lists. -/
def listMax : List ℚ → ℚ
  | [] => 0
  | x :: xs => xs.foldl max x

/-- The `loadHeatmapData` on an already-fetched observation batch (the network
fetch is the caller's concern; a failed per-site fetch simply does not
appear in `samples`). -/
def loadHeatmapData (samples : List WeatherObservation) : List HeatmapPoint :=
  if samples.length = 0 then []
  else
    let temperatures := samples.map (·.temperature)
    let mn := listMin temperatures
    let mx := listMax temperatures
    samples.map fun cell =>
      { id := cell.id
        name := cell.name
        latitude := cell.latitude
        longitude := cell.longitude
        intensity := normalize cell.temperature mn mx
        multipliers := some [normalize cell.precipitation 0 10,
                             normalize cell.windspeed 0 20] }

/-- The body of the `loadWeatherCells` map: classify one observation and
derive its severity. -/
def weatherCellOf (cell : WeatherObservation) : WeatherCell :=
  let status := classifyWeather cell.precipitation cell.windspeed cell.cloudcover
  let severityBase : ℚ :=
    match status with
    | .storm => cell.precipitation + cell.windspeed * (4/10)
    | .rain => cell.precipitation
    | .wind => cell.windspeed
    | .cloudy => cell.cloudcover
    | .clear => 5
  { id := cell.id
    latitude := cell.latitude
    longitude := cell.longitude
    status := status
    severity := min 1 (severityBase / 20)
    multipliers := some [normalize cell.precipitation 0 12,
                         normalize cell.windspeed 0 30] }

/-- The `loadWeatherCells` on an already-fetched batch. -/
def loadWeatherCells (samples : List WeatherObservation) : List WeatherCell :=
  samples.map weatherCellOf

/-- The fixed timeline offsets, in hours. -/
def timelineHours : List ℤ := [-6, -3, 0, 3, 6, 9]

/-- The mean severity `loadTimeline` recomputes for each event:
`cells.reduce((acc, cell) => acc + cell.severity, 0) / Math.max(cells.length, 1)`. -/
def meanSeverity (cells : List WeatherCell) : ℚ :=
  (cells.foldl (fun acc cell => acc + cell.severity) 0) / (max cells.length 1 : ℕ)

/-- One timeline event, given the event index and its hour offset. -/
def timelineEventOf (now : ℤ) (cells : List WeatherCell) (index : ℕ) (offset : ℤ) :
    TimelineEvent :=
  let severity := meanSeverity cells
  { id := "event-" ++ toString index
    label :=
      if offset = 0 then "Now"
      else if offset > 0 then "+" ++ toString offset ++ "h"
      else toString offset ++ "h"
    description :=
      if offset = 0 then "Live conditions across monitored sites."
      else if offset > 0 then "Projected weather pattern shift."
      else "Historical snapshot from earlier today."
    timestamp := now + offset * 60 * 60 * 1000
    overlayMultipliers :=
      { heatmap := min 1 (severity + index * (5/100))
        weather := min 1 (severity + index * (8/100))
        routes := max (4/10) (1 - |(offset : ℚ)| * (5/100)) } }

/-- The `loadTimeline`: six events at the fixed hour offsets. -/
def loadTimeline (now : ℤ) (cells : List WeatherCell) : List TimelineEvent :=
  timelineHours.enum.map fun p => timelineEventOf now cells p.1 p.2

/-- The descending-by-intensity ordering `buildRouteArcs` sorts with
(`(a, b) => b.intensity - a.intensity`): `a` precedes `b` when
`b.intensity ≤ a.intensity`; key-equal points keep their original order,
as with JS's stable sort. -/
def intensityDesc (a b : HeatmapPoint) : Prop :=
  b.intensity ≤ a.intensity

instance : DecidableRel intensityDesc := fun a b =>
  inferInstanceAs (Decidable (b.intensity ≤ a.intensity))

/-- The points `buildRouteArcs` keeps: sorted descending by intensity,
truncated to the top 6. -/
def routeArcKept (points : List HeatmapPoint) : List HeatmapPoint :=
  (List.insertionSort intensityDesc points).take 6

/-- Fallback element for list indexing inside `buildRouteArcs`; every
access is within bounds, so it is never produced. -/
def dummyHeatmapPoint : HeatmapPoint :=
  { id := "", name := "", latitude := 0, longitude := 0, intensity := 0 }

/-- The arc built for index `index` of the kept list. -/
def routeArcAt (sorted : List HeatmapPoint) (index : ℕ) : RouteArc :=
  let src := sorted.getD index dummyHeatmapPoint
  let dst := sorted.getD ((index + 2) % sorted.length) dummyHeatmapPoint
  { id := src.id ++ "-" ++ dst.id
    src := { name := src.name, latitude := src.latitude, longitude := src.longitude }
    dst := { name := dst.name, latitude := dst.latitude, longitude := dst.longitude }
    magnitude := (src.intensity + dst.intensity) / 2
    multipliers := src.multipliers }

/-- The `buildRouteArcs`: fewer than two points yield no arcs; otherwise one
arc per loop index `0 ≤ index < sorted.length - 1`. -/
def buildRouteArcs (points : List HeatmapPoint) : List RouteArc :=
  if points.length < 2 then []
  else
    let sorted := routeArcKept points
    (List.range (sorted.length - 1)).map (routeArcAt sorted)

/-! ### TLE parser (API route) -/

/-- One parsed TLE triplet. -/
structure TleRecord where
  name : String
  line1 : String
  line2 : String
  deriving DecidableEq, Repr

/-- The `SATELLITE_SAMPLE_COUNT`. -/
def SATELLITE_SAMPLE_COUNT : ℕ := 6

/-- The `SATELLITE_STEP_SECONDS`. -/
def SATELLITE_STEP_SECONDS : ℕ := 60

/-- The `SATELLITE_LOOKAHEAD_SECONDS`. -/
def SATELLITE_LOOKAHEAD_SECONDS : ℕ := 2 * 60 * 60

/-- The `ALERT_RADIUS_KM`. -/
def ALERT_RADIUS_KM : ℚ := 500

/-- The `parseTleSets` scan loop: take three lines per iteration, accept
the window when line 2 starts with `"1 "` and line 3 with `"2 "`, and stop
as soon as `SATELLITE_SAMPLE_COUNT` records are collected (the JS loop
`break`s right after the push).  When fewer than three lines remain the
loop condition `index < lines.length - 2` fails and the scan ends. -/
def tleLoop : List String → List TleRecord → List TleRecord
  | name :: line1 :: line2 :: rest, sets =>
    let sets' :=
      if jsStartsWith line1 "1 " && jsStartsWith line2 "2 " then
        sets ++ [{ name := name, line1 := line1, line2 := line2 }]
      else sets
    if SATELLITE_SAMPLE_COUNT ≤ sets'.length then sets' else tleLoop rest sets'
  | _, sets => sets

/-- The `parseTleSets`. -/
def parseTleSets (tleText : String) : List TleRecord :=
  tleLoop (cleanLines tleText) []

/-- The record a single well-formed 3-line window produces (used to state
what the parser collects); `none` for a rejected window. -/
def windowRecord : List String → Option TleRecord
  | [name, line1, line2] =>
    if jsStartsWith line1 "1 " && jsStartsWith line2 "2 " then
      some { name := name, line1 := line1, line2 := line2 }
    else none
  | _ => none

/-! ### Satellite pass computation (API route)

`computeSatellitePasses` calls the external `satellite.js` propagator and
the floating-point haversine kernel.  Both are abstracted into an oracle:
`geo tle step` is the geodetic subpoint (degrees latitude / longitude and
height in metres) the propagation chain yields at `now + step` seconds, or
`none` when `propagate` returns no position (the per-sample skip);
`parses tle` is `false` when `twoline2satrec` (or a propagation call)
throws, which the surrounding `catch` turns into skipping the whole
record; `dist lat1 lon1 lat2 lon2` is the numeric distance kernel
(`haversineDistance` as computed on floats). -/

/-- A geodetic subpoint as produced by `eciToGeodetic` +
`degreesLat`/`degreesLong`. -/
structure Subpoint where
  latitude : ℚ
  longitude : ℚ
  height : ℚ
  deriving DecidableEq, Repr

/-- The oracle for the external propagation chain and the float distance
kernel. -/
structure SatOracle where
  parses : TleRecord → Bool
  geo : TleRecord → ℕ → Option Subpoint
  dist : ℚ → ℚ → ℚ → ℚ → ℚ

/-- A computed satellite pass.  `passTime` is epoch milliseconds
(`toISOString` omitted); `noradId` is `none` when `parseInt` yields
`NaN`. -/
structure SatellitePass where
  name : String
  noradId : Option ℤ
  distanceKm : ℚ
  passTime : ℤ
  altitudeKm : Option ℚ := none
  deriving DecidableEq, Repr

/-- The sample offsets `step = 0, 60, …, 7200` seconds. -/
def satelliteSteps : List ℕ :=
  (List.range (SATELLITE_LOOKAHEAD_SECONDS / SATELLITE_STEP_SECONDS + 1)).map
    (· * SATELLITE_STEP_SECONDS)

/-- The running closest sample: distance, test time (epoch ms) and the
altitude candidate (`undefined` when `geodetic.height` is falsy, i.e. 0). -/
structure ClosestSample where
  distance : ℚ
  time : ℤ
  altitudeKm : Option ℚ
  deriving DecidableEq, Repr

/-- One iteration of the inner sampling loop of
`computeSatellitePasses`: skip a failed propagation, otherwise keep the
strictly closest subpoint seen so far (`none` plays the role of the
initial `Infinity` / `null` state). -/
def closestStep (o : SatOracle) (now : ℤ) (latitude longitude : ℚ)
    (tle : TleRecord) (acc : Option ClosestSample) (step : ℕ) :
    Option ClosestSample :=
  match o.geo tle step with
  | none => acc
  | some g =>
    let distance := o.dist latitude longitude g.latitude g.longitude
    if (match acc with
        | none => true
        | some c => distance < c.distance) then
      some { distance := distance
             time := now + (step : ℤ) * 1000
             altitudeKm := if g.height ≠ 0 then some (g.height / 1000) else none }
    else acc

/-- The inner sampling loop of `computeSatellitePasses`. -/
def closestApproach (o : SatOracle) (now : ℤ) (latitude longitude : ℚ)
    (tle : TleRecord) : Option ClosestSample :=
  satelliteSteps.foldl (closestStep o now latitude longitude tle) none

/-- JS `Number(x.toFixed(1))`: round to one decimal, half towards `+∞`
(the ECMAScript `toFixed` tie rule picks the larger candidate). -/
def toFixed1 (q : ℚ) : ℚ := (⌊q * 10 + 1/2⌋ : ℤ) / 10

/-- The per-record body of `computeSatellitePasses`: `none` when the
record is skipped (parse failure, no propagated sample, or the closest
distance is not `< 2500`). -/
def passOf (o : SatOracle) (now : ℤ) (latitude longitude : ℚ)
    (tle : TleRecord) : Option SatellitePass :=
  if o.parses tle then
    match closestApproach o now latitude longitude tle with
    | some c =>
      if c.distance < 2500 then
        some { name := jsTrim tle.name
               noradId := parseInt10 (jsSlice tle.line1 2 7)
               distanceKm := toFixed1 c.distance
               passTime := c.time
               altitudeKm :=
                 match c.altitudeKm with
                 | some a => if a ≠ 0 then some (toFixed1 a) else none
                 | none => none }
      else none
    | none => none
  else none

/-- Ascending order on the rounded pass distance, as compared by
`(a, b) => a.distanceKm - b.distanceKm`. -/
def passDistLe (a b : SatellitePass) : Prop :=
  a.distanceKm ≤ b.distanceKm

instance : DecidableRel passDistLe := fun a b =>
  inferInstanceAs (Decidable (a.distanceKm ≤ b.distanceKm))

instance : IsTotal SatellitePass passDistLe :=
  ⟨fun a b => le_total a.distanceKm b.distanceKm⟩

instance : IsTrans SatellitePass passDistLe :=
  ⟨fun _ _ _ h h' => le_trans h h'⟩

/-- The `computeSatellitePasses`: one candidate per record, sorted ascending
by `distanceKm` (stable, as JS `sort`) and truncated to the top 5. -/
def computeSatellitePasses (o : SatOracle) (now : ℤ) (latitude longitude : ℚ)
    (tles : List TleRecord) : List SatellitePass :=
  (List.insertionSort passDistLe
    (tles.filterMap (passOf o now latitude longitude))).take 5

/-- The distance computed for one sample step, `none` when the
propagation yields no position there. -/
def sampleDist (o : SatOracle) (latitude longitude : ℚ) (tle : TleRecord)
    (step : ℕ) : Option ℚ :=
  (o.geo tle step).map fun g => o.dist latitude longitude g.latitude g.longitude

/-- The minimum distance over the successfully propagated sample times of
one record — the quantity the specification's relevance-radius rule talks
about (`none` when no sample propagates). -/
def minSampledDistance (o : SatOracle) (latitude longitude : ℚ)
    (tle : TleRecord) : Option ℚ :=
  (satelliteSteps.filterMap (sampleDist o latitude longitude tle)).min?

/-! ### The per-ground-point GET handler (API route)

The handler is modelled from the point where both query parameters have
been parsed into finite numbers (the 400 responses for missing or
non-finite parameters happen before any upstream fetch and are unrelated
to upstream failures).  Each of the five concurrently awaited fetches is
modelled as `Option payload`, `none` meaning the response was not `ok`.
The URL-building fields of the response (`imageryUrl`, `fallbackImagery`,
`links`) are pure string formatting from the coordinates, computed on
every success path independently of any fetch outcome; they are omitted
from the modelled body. -/

/-- The `reversePayload.results[i]`. -/
structure ReverseResult where
  name : Option String := none
  country : Option String := none
  admin1 : Option String := none
  timezone : Option String := none
  population : Option ℚ := none
  elevation : Option ℚ := none
  deriving DecidableEq, Repr

/-- The `weatherPayload.current_weather`. -/
structure CurrentWeather where
  temperature : Option ℚ := none
  windspeed : Option ℚ := none
  weathercode : Option ℕ := none
  deriving DecidableEq, Repr

/-- The weather forecast payload: current weather plus the hourly
precipitation series. -/
structure WeatherPayload where
  current_weather : Option CurrentWeather := none
  hourlyPrecipitation : Option (List ℚ) := none
  deriving DecidableEq, Repr

/-- The `topoPayload.results[i]`. -/
structure TopoResult where
  elevation : Option ℚ := none
  deriving DecidableEq, Repr

/-- One USGS feed feature; `geometry.coordinates` is `[lon, lat, depth]`
and only the first two are read. -/
structure UsgsFeature where
  id : String
  mag : Option ℚ := none
  title : Option String := none
  time : Option ℤ := none
  lon : ℚ
  lat : ℚ
  deriving DecidableEq, Repr

/-- The outcome of one awaited fetch.  `rejected` models the promise
rejecting (network failure) or the body parse (`json()` / `text()`)
throwing — either aborts the `Promise.all`/`try` block and reaches the
`catch`; `notOk` models a response that resolved with `ok = false`;
`ok` carries the parsed payload. -/
inductive FetchOutcome (α : Type) where
  | rejected
  | notOk
  | ok (payload : α)
  deriving DecidableEq, Repr

/-- Whether the fetch promise rejected (which makes `Promise.all`
throw). -/
def FetchOutcome.isRejected {α : Type} : FetchOutcome α → Bool
  | .rejected => true
  | _ => false

/-- Whether the fetch resolved ok. -/
def FetchOutcome.isOk {α : Type} : FetchOutcome α → Bool
  | .ok _ => true
  | _ => false

/-- The payload of an ok fetch (`res.ok ? payload : undefined`). -/
def FetchOutcome.toOption {α : Type} : FetchOutcome α → Option α
  | .ok payload => some payload
  | _ => none

/-- The outcomes of the five concurrently awaited fetches. -/
structure Fetches where
  reverse : FetchOutcome (List ReverseResult)
  weather : FetchOutcome WeatherPayload
  topo : FetchOutcome (List TopoResult)
  usgs : FetchOutcome (List UsgsFeature)
  tle : FetchOutcome String
  deriving DecidableEq, Repr

/-- One alert record; `happenedAt` is epoch milliseconds (the `now`
fallback applies when `properties.time` is absent or `0`, which is falsy). -/
structure AlertInfo where
  id : String
  title : String
  source : String
  severity : Option String := none
  magnitude : Option ℚ := none
  distanceKm : ℚ
  happenedAt : ℤ
  deriving DecidableEq, Repr

/-- The `weather` block of the response body. -/
structure WeatherBlock where
  temperature : Option ℚ := none
  windspeed : Option ℚ := none
  precipitation : Option ℚ := none
  description : Option String := none
  deriving DecidableEq, Repr

/-- The modelled response body (URL-only fields omitted, see above). -/
structure ResponseBody where
  country : Option String := none
  region : Option String := none
  timezone : Option String := none
  population : Option ℚ := none
  elevation : Option ℚ := none
  weather : WeatherBlock
  alerts : List AlertInfo
  satellites : List SatellitePass
  deriving DecidableEq, Repr

/-- An error response (`status`, `error` message). -/
structure ErrorResponse where
  status : ℕ
  error : String
  deriving DecidableEq, Repr

/-- The `mapWeatherCode`. -/
def mapWeatherCode : Option ℕ → Option String
  | none => none
  | some code =>
    some <|
      match code with
      | 0 => "Clear sky"
      | 1 => "Mainly clear"
      | 2 => "Partly cloudy"
      | 3 => "Overcast"
      | 45 => "Fog"
      | 48 => "Depositing rime fog"
      | 51 => "Light drizzle"
      | 53 => "Moderate drizzle"
      | 55 => "Dense drizzle"
      | 56 => "Freezing drizzle"
      | 57 => "Freezing drizzle"
      | 61 => "Slight rain"
      | 63 => "Moderate rain"
      | 65 => "Heavy rain"
      | 66 => "Freezing rain"
      | 67 => "Freezing rain"
      | 71 => "Slight snow"
      | 73 => "Moderate snow"
      | 75 => "Heavy snow"
      | 77 => "Snow grains"
      | 80 => "Rain showers"
      | 81 => "Moderate rain showers"
      | 82 => "Violent rain showers"
      | 85 => "Snow showers"
      | 86 => "Heavy snow showers"
      | 95 => "Thunderstorm"
      | 96 => "Thunderstorm with hail"
      | 99 => "Severe thunderstorm with hail"
      | _ => "Weather data unavailable"

/-- The average over the first six hourly precipitation values, `none`
when the series is empty (`averagePrecipitation`). -/
def averagePrecipitation (precipitation : List ℚ) : Option ℚ :=
  if 0 < precipitation.length then
    some ((precipitation.take 6).sum / (min 6 precipitation.length : ℕ))
  else none

/-- The alert built from one USGS feature, `none` when it lies beyond
`ALERT_RADIUS_KM` (the `.filter(Boolean)` step). -/
def alertOf (dist : ℚ → ℚ → ℚ → ℚ → ℚ) (now : ℤ) (latitude longitude : ℚ)
    (feature : UsgsFeature) : Option AlertInfo :=
  let distance := dist latitude longitude feature.lat feature.lon
  if distance > ALERT_RADIUS_KM then none
  else
    some
      { id := feature.id
        title := feature.title.getD "Seismic activity detected"
        source := "USGS Earthquake Feed"
        severity :=
          match feature.mag with
          | some mag => some (if mag ≥ 6 then "High" else if mag ≥ 5 then "Moderate" else "Low")
          | none => none
        magnitude := feature.mag
        distanceKm := toFixed1 distance
        happenedAt :=
          match feature.time with
          | some t => if t ≠ 0 then t else now
          | none => now }

/-- The GET handler, from validated coordinates onward.  The five
fetches are awaited together with `Promise.all` inside one `try`: if any
of the five promises rejects, the `await` throws and the `catch` returns
the 502 error response for everything.  Among resolved responses, a
non-ok reverse-geocoding or weather response throws explicitly (same 502
via the `catch`), while non-ok topo, USGS and TLE responses degrade to
`undefined` / empty defaults.  (The `rejected` arms of the inner matches
are unreachable under the leading guard and return the same 502,
keeping the function total.) -/
def handleGet (o : SatOracle) (now : ℤ) (latitude longitude : ℚ)
    (f : Fetches) : Except ErrorResponse ResponseBody :=
  if f.reverse.isRejected || f.weather.isRejected || f.topo.isRejected
      || f.usgs.isRejected || f.tle.isRejected then
    .error { status := 502, error := "Failed to load location intelligence" }
  else
    match f.reverse with
    | .rejected => .error { status := 502, error := "Failed to load location intelligence" }
    | .notOk => .error { status := 502, error := "Failed to load location intelligence" }
    | .ok reverseResults =>
      match f.weather with
      | .rejected => .error { status := 502, error := "Failed to load location intelligence" }
      | .notOk => .error { status := 502, error := "Failed to load location intelligence" }
      | .ok weatherPayload =>
        let tleText := f.tle.toOption.getD ""
        let tleSets := parseTleSets tleText
        let result := reverseResults.head?
        let currentWeather := weatherPayload.current_weather.getD {}
        let precipitation := weatherPayload.hourlyPrecipitation.getD []
        let alerts :=
          (f.usgs.toOption.getD []).filterMap (alertOf o.dist now latitude longitude)
        let satellites := computeSatellitePasses o now latitude longitude tleSets
        .ok
          { country := result.bind (·.country)
            region := result.bind (·.admin1)
            timezone := result.bind (·.timezone)
            population := result.bind (·.population)
            elevation :=
              (result.bind (·.elevation)).orElse fun _ =>
                (f.topo.toOption.bind (·.head?)).bind (·.elevation)
            weather :=
              { temperature := currentWeather.temperature
                windspeed := currentWeather.windspeed
                precipitation := averagePrecipitation precipitation
                description := mapWeatherCode currentWeather.weathercode }
            alerts := alerts
            satellites := satellites }

/-! ### Globe store state (globeStore.ts)

The zustand store is a record of fields plus setters; each setter is a
pure state transition, modelled below by `GlobeOp`/`globeStep`.  The
store-side payload records keep the TS interface shapes (timestamps that
the TS interfaces declare as `string` stay `String` here). -/

/-- The `ResultLinks`. -/
structure ResultLinks where
  osm : String
  google : String
  wikipedia : Option String := none
  wikivoyage : Option String := none
  deriving DecidableEq, Repr

/-- The `WeatherSnapshot`. -/
structure WeatherSnapshot where
  temperature : Option ℚ := none
  windspeed : Option ℚ := none
  precipitation : Option ℚ := none
  description : Option String := none
  symbol : Option String := none
  deriving DecidableEq, Repr

/-- Store-side `AlertInfo` (the TS interface keeps `happenedAt` as a
string). -/
structure StoreAlertInfo where
  id : String
  title : String
  source : String
  severity : Option String := none
  magnitude : Option ℚ := none
  distanceKm : ℚ
  happenedAt : String
  deriving DecidableEq, Repr

/-- Store-side `SatellitePass` (string `passTime`). -/
structure StoreSatellitePass where
  name : String
  noradId : ℚ
  distanceKm : ℚ
  passTime : String
  altitudeKm : Option ℚ := none
  deriving DecidableEq, Repr

/-- The `SearchResult`. -/
structure SearchResult where
  id : String
  name : String
  latitude : ℚ
  longitude : ℚ
  displayName : String
  country : Option String := none
  region : Option String := none
  timezone : Option String := none
  population : Option ℚ := none
  elevation : Option ℚ := none
  boundingBox : Option (ℚ × ℚ × ℚ × ℚ) := none
  imageryUrl : Option String := none
  fallbackImagery : Option String := none
  weather : Option WeatherSnapshot := none
  alerts : Option (List StoreAlertInfo) := none
  satellites : Option (List StoreSatellitePass) := none
  links : Option ResultLinks := none
  deriving DecidableEq, Repr

/-- The `SavedTarget`. -/
structure SavedTarget where
  id : String
  name : String
  latitude : ℚ
  longitude : ℚ
  savedAt : String
  tags : Option (List String) := none
  notes : Option String := none
  deriving DecidableEq, Repr

/-- The `QueryTrail`. -/
structure QueryTrail where
  fromLatitude : ℚ
  fromLongitude : ℚ
  toLatitude : ℚ
  toLongitude : ℚ
  distanceKm : ℚ
  bearing : ℚ
  occurredAt : String
  deriving DecidableEq, Repr

/-- A `Partial<SearchResult>` patch: a present entry overwrites the field
(`some none` writes `undefined` into an optional field), an absent entry
leaves it alone — the semantics of the `{ ...item, ...patch }` spread. -/
structure SearchResultPatch where
  id : Option String := none
  name : Option String := none
  latitude : Option ℚ := none
  longitude : Option ℚ := none
  displayName : Option String := none
  country : Option (Option String) := none
  region : Option (Option String) := none
  timezone : Option (Option String) := none
  population : Option (Option ℚ) := none
  elevation : Option (Option ℚ) := none
  boundingBox : Option (Option (ℚ × ℚ × ℚ × ℚ)) := none
  imageryUrl : Option (Option String) := none
  fallbackImagery : Option (Option String) := none
  weather : Option (Option WeatherSnapshot) := none
  alerts : Option (Option (List StoreAlertInfo)) := none
  satellites : Option (Option (List StoreSatellitePass)) := none
  links : Option (Option ResultLinks) := none

/-- The `{ ...item, ...patch }`. -/
def applyPatch (item : SearchResult) (patch : SearchResultPatch) : SearchResult :=
  { id := patch.id.getD item.id
    name := patch.name.getD item.name
    latitude := patch.latitude.getD item.latitude
    longitude := patch.longitude.getD item.longitude
    displayName := patch.displayName.getD item.displayName
    country := patch.country.getD item.country
    region := patch.region.getD item.region
    timezone := patch.timezone.getD item.timezone
    population := patch.population.getD item.population
    elevation := patch.elevation.getD item.elevation
    boundingBox := patch.boundingBox.getD item.boundingBox
    imageryUrl := patch.imageryUrl.getD item.imageryUrl
    fallbackImagery := patch.fallbackImagery.getD item.fallbackImagery
    weather := patch.weather.getD item.weather
    alerts := patch.alerts.getD item.alerts
    satellites := patch.satellites.getD item.satellites
    links := patch.links.getD item.links }

/-- The `{ ...entry, ...target }` for a full `SavedTarget`: required fields
come from `target`; its optional fields survive from `entry` only when
`target` omits them. -/
def mergeSavedTarget (entry target : SavedTarget) : SavedTarget :=
  { target with
    tags := target.tags.orElse fun _ => entry.tags
    notes := target.notes.orElse fun _ => entry.notes }

/-- Per-overlay `Record<OverlayKey, _>`. -/
structure OverlayRecord (α : Type) where
  heatmap : α
  routes : α
  weather : α
  deriving DecidableEq, Repr

/-- Write one key of an `OverlayRecord` (the `{ ...state.overlays,
[key]: value }` spread). -/
def OverlayRecord.set {α : Type} (r : OverlayRecord α) (key : OverlayKey) (value : α) :
    OverlayRecord α :=
  match key with
  | .heatmap => { r with heatmap := value }
  | .routes => { r with routes := value }
  | .weather => { r with weather := value }

/-- The store's data fields (`GlobeState` minus the setter closures).
`timelineIndex` is a JS number, so `ℚ` (an updater may return any
number). -/
structure GlobeState where
  overlays : OverlayRecord Bool
  overlayIntensity : OverlayRecord ℚ
  heatmapPoints : List HeatmapPoint
  routeArcs : List RouteArc
  weatherCells : List WeatherCell
  timeline : List TimelineEvent
  timelineIndex : ℚ
  isPlayingTimeline : Bool
  searchQuery : String
  searchResults : List SearchResult
  searchLoading : Bool
  searchError : Option String
  savedTargets : List SavedTarget
  recentQueries : List SearchResult
  queryTrails : List QueryTrail
  useNasaTexture : Bool
  activeGeofence : Option (ℚ × ℚ × ℚ × ℚ)

/-- The initial store state. -/
def initialGlobeState : GlobeState :=
  { overlays := { heatmap := true, routes := true, weather := false }
    overlayIntensity := { heatmap := 1, routes := 1, weather := 1 }
    heatmapPoints := []
    routeArcs := []
    weatherCells := []
    timeline := []
    timelineIndex := 0
    isPlayingTimeline := false
    searchQuery := ""
    searchResults := []
    searchLoading := false
    searchError := none
    savedTargets := []
    recentQueries := []
    queryTrails := []
    useNasaTexture := false
    activeGeofence := none }

/-- One store operation (each setter the store exposes).  Setters that
accept a number-or-updater take a function; a plain number is the constant
function. -/
inductive GlobeOp where
  | setUseNasaTexture (enabled : Bool)
  | setSavedTargets (targets : List SavedTarget)
  | setRecentQueries (results : List SearchResult)
  | setActiveGeofence (box : Option (ℚ × ℚ × ℚ × ℚ))
  | setOverlayEnabled (key : OverlayKey) (enabled : Bool)
  | setOverlayIntensity (key : OverlayKey) (value : ℚ)
  | setTimelineIndex (indexOrUpdater : ℚ → ℚ)
  | setIsPlayingTimeline (playingOrUpdater : Bool → Bool)
  | setHeatmapPoints (points : List HeatmapPoint)
  | setRouteArcs (routes : List RouteArc)
  | setWeatherCells (cells : List WeatherCell)
  | setTimeline (events : List TimelineEvent)
  | setSearchQuery (query : String)
  | setSearchResults (results : List SearchResult)
  | updateSearchResult (id : String) (patch : SearchResultPatch)
  | setSearchLoading (loading : Bool)
  | setSearchError (error : Option String)
  | addSavedTarget (target : SavedTarget)
  | removeSavedTarget (id : String)
  | recordQueryTrail (trail : QueryTrail)
  | pushRecentQuery (result : SearchResult)

/-- The transition each setter performs. -/
def globeStep (op : GlobeOp) (state : GlobeState) : GlobeState :=
  match op with
  | .setUseNasaTexture enabled => { state with useNasaTexture := enabled }
  | .setSavedTargets targets => { state with savedTargets := targets }
  | .setRecentQueries results => { state with recentQueries := results }
  | .setActiveGeofence box => { state with activeGeofence := box }
  | .setOverlayEnabled key enabled =>
    { state with overlays := state.overlays.set key enabled }
  | .setOverlayIntensity key value =>
    { state with overlayIntensity := state.overlayIntensity.set key value }
  | .setTimelineIndex indexOrUpdater =>
    let nextIndex := indexOrUpdater state.timelineIndex
    let clamped : ℚ :=
      max 0 (min nextIndex (max ((state.timeline.length : ℚ) - 1) 0))
    { state with timelineIndex := clamped }
  | .setIsPlayingTimeline playingOrUpdater =>
    { state with isPlayingTimeline := playingOrUpdater state.isPlayingTimeline }
  | .setHeatmapPoints heatmapPoints => { state with heatmapPoints := heatmapPoints }
  | .setRouteArcs routeArcs => { state with routeArcs := routeArcs }
  | .setWeatherCells weatherCells => { state with weatherCells := weatherCells }
  | .setTimeline timeline =>
    { state with
      timeline := timeline
      timelineIndex :=
        min state.timelineIndex (max ((timeline.length : ℚ) - 1) 0) }
  | .setSearchQuery searchQuery => { state with searchQuery := searchQuery }
  | .setSearchResults searchResults => { state with searchResults := searchResults }
  | .updateSearchResult id patch =>
    { state with
      searchResults :=
        state.searchResults.map fun item =>
          if item.id = id then applyPatch item patch else item }
  | .setSearchLoading searchLoading => { state with searchLoading := searchLoading }
  | .setSearchError searchError => { state with searchError := searchError }
  | .addSavedTarget target =>
    if state.savedTargets.any fun entry => entry.id = target.id then
      { state with
        savedTargets :=
          state.savedTargets.map fun entry =>
            if entry.id = target.id then mergeSavedTarget entry target else entry }
    else { state with savedTargets := state.savedTargets ++ [target] }
  | .removeSavedTarget id =>
    { state with
      savedTargets := state.savedTargets.filter fun entry => entry.id ≠ id }
  | .recordQueryTrail trail =>
    { state with
      queryTrails :=
        (state.queryTrails.drop (state.queryTrails.length - 19)) ++ [trail] }
  | .pushRecentQuery result =>
    { state with
      recentQueries :=
        (result :: state.recentQueries.filter fun item => item.id ≠ result.id).take 15 }

/-- The store invariant the claims are about: the timeline index stays
inside the (clamped) timeline range. -/
def TimelineIndexInv (state : GlobeState) : Prop :=
  0 ≤ state.timelineIndex ∧
    state.timelineIndex ≤ max ((state.timeline.length : ℚ) - 1) 0

/-! ### Geodesy: the haversine distance (API route)

The only place trigonometry is needed; modelled over `ℝ` (the
floating-point evaluation is what the abstract `SatOracle.dist` kernel
stands for in the consumers above). -/

/-- The `EARTH_MEAN_RADIUS_KM`. -/
noncomputable def EARTH_MEAN_RADIUS_KM : ℝ := 6371.0088

/-- The `toRadians`. -/
noncomputable def toRadians (value : ℝ) : ℝ := value * Real.pi / 180

/-- JS `Math.atan2(y, x)` on the reals (quadrant-corrected arctangent;
`atan2(0, 0) = 0` as in IEEE/JS for positive zeros). -/
noncomputable def atan2 (y x : ℝ) : ℝ :=
  if 0 < x then Real.arctan (y / x)
  else if x < 0 ∧ 0 ≤ y then Real.arctan (y / x) + Real.pi
  else if x < 0 ∧ y < 0 then Real.arctan (y / x) - Real.pi
  else if x = 0 ∧ 0 < y then Real.pi / 2
  else if x = 0 ∧ y < 0 then -(Real.pi / 2)
  else 0

/-- The `haversineDistance(lat1, lon1, lat2, lon2)`. -/
noncomputable def haversineDistance (lat1 lon1 lat2 lon2 : ℝ) : ℝ :=
  let dLat := toRadians (lat2 - lat1)
  let dLon := toRadians (lon2 - lon1)
  let a := Real.sin (dLat / 2) ^ 2 +
    Real.cos (toRadians lat1) * Real.cos (toRadians lat2) * Real.sin (dLon / 2) ^ 2
  let c := 2 * atan2 (Real.sqrt a) (Real.sqrt (1 - a))
  EARTH_MEAN_RADIUS_KM * c

/-! ### Specification-side definitions

For the refinement-style claims, a second definition written from the
specification's words, to be compared with the embedded code. -/

/-- Spec wording for the weather status: "storm if precipitation ≥ 8 and
windspeed ≥ 12; else rain if precipitation ≥ 2; else wind if
windspeed ≥ 12; else cloudy if cloudcover ≥ 45; else clear". -/
def specWeatherStatus (precipitation windspeed cloudcover : ℚ) : WeatherStatus :=
  if 8 ≤ precipitation ∧ 12 ≤ windspeed then .storm
  else if 2 ≤ precipitation then .rain
  else if 12 ≤ windspeed then .wind
  else if 45 ≤ cloudcover then .cloudy
  else .clear

/-- Spec wording for the severity: "min(1,(precip+wind·0.4)/20) for
storm, min(1,precip/20) for rain, min(1,wind/20) for wind,
min(1,cloudcover/20) for cloudy, and exactly 0.25 for clear". -/
def specWeatherSeverity (status : WeatherStatus)
    (precipitation windspeed cloudcover : ℚ) : ℚ :=
  match status with
  | .storm => min 1 ((precipitation + windspeed * (4/10)) / 20)
  | .rain => min 1 (precipitation / 20)
  | .wind => min 1 (windspeed / 20)
  | .cloudy => min 1 (cloudcover / 20)
  | .clear => 1/4

/-! ### Helper lemmas -/

/-- A left fold by `min` over an all-equal list stays at that value. -/
lemma foldl_min_all_eq :
    ∀ (xs : List ℚ) (a t : ℚ), a = t → (∀ x ∈ xs, x = t) → xs.foldl min a = t := by
  intro xs
  induction xs with
  | nil => intro a t ha _; simpa using ha
  | cons x xs ih =>
    intro a t ha h
    simp only [List.foldl_cons]
    refine ih _ t ?_ fun y hy => h y (by simp [hy])
    rw [ha, h x (by simp), min_self]

/-- A left fold by `max` over an all-equal list stays at that value. -/
lemma foldl_max_all_eq :
    ∀ (xs : List ℚ) (a t : ℚ), a = t → (∀ x ∈ xs, x = t) → xs.foldl max a = t := by
  intro xs
  induction xs with
  | nil => intro a t ha _; simpa using ha
  | cons x xs ih =>
    intro a t ha h
    simp only [List.foldl_cons]
    refine ih _ t ?_ fun y hy => h y (by simp [hy])
    rw [ha, h x (by simp), max_self]

/-- The `listMin` of a nonempty all-equal list. -/
lemma listMin_all_eq {l : List ℚ} {t : ℚ} (hne : l ≠ []) (h : ∀ x ∈ l, x = t) :
    listMin l = t := by
  match l, hne with
  | x :: xs, _ =>
    exact foldl_min_all_eq xs x t (h x (by simp)) fun y hy => h y (by simp [hy])

/-- The `listMax` of a nonempty all-equal list. -/
lemma listMax_all_eq {l : List ℚ} {t : ℚ} (hne : l ≠ []) (h : ∀ x ∈ l, x = t) :
    listMax l = t := by
  match l, hne with
  | x :: xs, _ =>
    exact foldl_max_all_eq xs x t (h x (by simp)) fun y hy => h y (by simp [hy])

/-! ### Claim theorems -/

/-- C5: the weather classifier follows the spec's strict priority order
with inclusive thresholds, and the derived severity matches the spec's
per-status formula (`0.25` exactly for `clear`). -/
theorem weatherCell_matches_spec (obs : WeatherObservation) :
    (weatherCellOf obs).status =
      specWeatherStatus obs.precipitation obs.windspeed obs.cloudcover ∧
    (weatherCellOf obs).severity =
      specWeatherSeverity
        (specWeatherStatus obs.precipitation obs.windspeed obs.cloudcover)
        obs.precipitation obs.windspeed obs.cloudcover := by
  have hs : specWeatherStatus obs.precipitation obs.windspeed obs.cloudcover =
      classifyWeather obs.precipitation obs.windspeed obs.cloudcover := rfl
  refine ⟨rfl, ?_⟩
  rw [hs]
  simp only [weatherCellOf]
  rcases h : classifyWeather obs.precipitation obs.windspeed obs.cloudcover with _ | _ | _ | _ | _ <;>
    norm_num [h, specWeatherSeverity]

/-- C7: `normalize` returns 0 whenever `min == max`, an empty batch
yields no heatmap points, and an all-equal temperature batch maps every
intensity to 0. -/
theorem heatmap_degenerate_safe :
    (∀ value mn : ℚ, normalize value mn mn = 0) ∧
    loadHeatmapData [] = [] ∧
    ∀ (samples : List WeatherObservation) (t : ℚ),
      (∀ s ∈ samples, s.temperature = t) →
      (loadHeatmapData samples).map (·.intensity) =
        List.replicate samples.length 0 := by
  refine ⟨fun value mn => by simp [normalize], rfl, ?_⟩
  intro samples t h
  match samples, h with
  | [], _ => simp [loadHeatmapData]
  | s :: rest, h =>
    have hne : (s :: rest).map (·.temperature) ≠ [] := by simp
    have hall : ∀ x ∈ (s :: rest).map (·.temperature), x = t := by
      intro x hx
      rcases List.mem_map.mp hx with ⟨c, hc, rfl⟩
      exact h c hc
    have hmn := listMin_all_eq hne hall
    have hmx := listMax_all_eq hne hall
    simp only [loadHeatmapData, List.length_cons, Nat.succ_ne_zero, if_false,
      hmn, hmx, List.map_map]
    rw [List.eq_replicate_iff]
    refine ⟨by simp, ?_⟩
    intro b hb
    rcases List.mem_map.mp hb with ⟨c, _, rfl⟩
    simp [normalize]

/-- C7 witness: a concrete two-site batch with equal temperatures has all
intensities 0. -/
theorem heatmap_degenerate_safe_witness :
    (∀ s ∈ [({ id := "a", name := "A", latitude := 1, longitude := 2,
                temperature := 21, precipitation := 3, cloudcover := 4,
                windspeed := 5 } : WeatherObservation),
             { id := "b", name := "B", latitude := 6, longitude := 7,
               temperature := 21, precipitation := 8, cloudcover := 9,
               windspeed := 10 }], s.temperature = 21) ∧
    (loadHeatmapData
        [{ id := "a", name := "A", latitude := 1, longitude := 2,
           temperature := 21, precipitation := 3, cloudcover := 4,
           windspeed := 5 },
         { id := "b", name := "B", latitude := 6, longitude := 7,
           temperature := 21, precipitation := 8, cloudcover := 9,
           windspeed := 10 }]).map (·.intensity) = List.replicate 2 0 :=
  ⟨by decide, heatmap_degenerate_safe.2.2 _ 21 (by decide)⟩

/-- C10: the timeline-index range invariant holds initially and is
preserved by every store operation. -/
theorem timelineIndex_invariant :
    TimelineIndexInv initialGlobeState ∧
    ∀ (op : GlobeOp) (s : GlobeState),
      TimelineIndexInv s → TimelineIndexInv (globeStep op s) := by
  constructor
  · exact ⟨le_refl 0, by norm_num [initialGlobeState]⟩
  · rintro op s ⟨h0, h1⟩
    cases op
    case setTimelineIndex f =>
      exact ⟨le_max_left 0 _, max_le (le_max_right _ 0) (min_le_right _ _)⟩
    case setTimeline events =>
      exact ⟨le_min h0 (le_max_right _ 0), min_le_right _ _⟩
    case addSavedTarget target =>
      simp only [globeStep]
      split <;> exact ⟨h0, h1⟩
    all_goals exact ⟨h0, h1⟩

/-- A concrete store operation used to witness the invariant
preservation. -/
def exTimelineOp : GlobeOp := .setTimelineIndex fun _ => 42

/-- C10 witness: preservation applied to a concrete out-of-range request
on the initial state. -/
theorem timelineIndex_invariant_witness :
    TimelineIndexInv (globeStep exTimelineOp initialGlobeState) :=
  timelineIndex_invariant.2 exTimelineOp initialGlobeState
    timelineIndex_invariant.1

/-- All three overlay multipliers of a timeline event lie in `[0, 1]`. -/
def multipliersInRange (e : TimelineEvent) : Prop :=
  0 ≤ e.overlayMultipliers.heatmap ∧ e.overlayMultipliers.heatmap ≤ 1 ∧
  0 ≤ e.overlayMultipliers.weather ∧ e.overlayMultipliers.weather ≤ 1 ∧
  0 ≤ e.overlayMultipliers.routes ∧ e.overlayMultipliers.routes ≤ 1

instance : DecidablePred multipliersInRange := fun e =>
  inferInstanceAs (Decidable
    (0 ≤ e.overlayMultipliers.heatmap ∧ e.overlayMultipliers.heatmap ≤ 1 ∧
     0 ≤ e.overlayMultipliers.weather ∧ e.overlayMultipliers.weather ≤ 1 ∧
     0 ≤ e.overlayMultipliers.routes ∧ e.overlayMultipliers.routes ≤ 1))

/-- The mean severity of a batch of cells with severities in `[0, 1]`
lies in `[0, 1]` itself. -/
lemma meanSeverity_bounds (cells : List WeatherCell)
    (h : ∀ c ∈ cells, 0 ≤ c.severity ∧ c.severity ≤ 1) :
    0 ≤ meanSeverity cells ∧ meanSeverity cells ≤ 1 := by
  have key : ∀ (l : List WeatherCell) (acc : ℚ),
      (∀ c ∈ l, 0 ≤ c.severity ∧ c.severity ≤ 1) →
      acc ≤ l.foldl (fun acc cell => acc + cell.severity) acc ∧
        l.foldl (fun acc cell => acc + cell.severity) acc ≤ acc + l.length := by
    intro l
    induction l with
    | nil => intro acc _; simp
    | cons c cs ih =>
      intro acc hl
      obtain ⟨hc0, hc1⟩ := hl c (by simp)
      obtain ⟨ih0, ih1⟩ := ih (acc + c.severity) fun x hx => hl x (by simp [hx])
      constructor
      · exact le_trans (by linarith) ih0
      · refine le_trans ih1 ?_
        simp only [List.length_cons]
        push_cast
        linarith
  obtain ⟨k0, k1⟩ := key cells 0 h
  have hd : (0 : ℚ) < (max cells.length 1 : ℕ) := by
    have : 1 ≤ max cells.length 1 := le_max_right _ _
    exact_mod_cast Nat.lt_of_lt_of_le Nat.zero_lt_one this
  unfold meanSeverity
  constructor
  · exact div_nonneg (by linarith) (le_of_lt hd)
  · rw [div_le_one hd]
    have : (cells.length : ℚ) ≤ (max cells.length 1 : ℕ) := by
      exact_mod_cast Nat.le_max_left _ _
    linarith

/-- Each event built by `loadTimeline` has in-range multipliers when the
cell severities are in `[0, 1]`. -/
lemma timelineEventOf_inRange (now : ℤ) (cells : List WeatherCell)
    (index : ℕ) (offset : ℤ)
    (h : ∀ c ∈ cells, 0 ≤ c.severity ∧ c.severity ≤ 1) :
    multipliersInRange (timelineEventOf now cells index offset) := by
  obtain ⟨h0, h1⟩ := meanSeverity_bounds cells h
  refine ⟨?_, min_le_left _ _, ?_, min_le_left _ _, ?_, ?_⟩
  · exact le_min (by norm_num) (add_nonneg h0 (by positivity))
  · exact le_min (by norm_num) (add_nonneg h0 (by positivity))
  · exact le_trans (by norm_num) (le_max_left _ _)
  · exact max_le (by norm_num) (by
      have : 0 ≤ |(offset : ℚ)| * (5/100) := by positivity
      linarith)

/-- C9: `loadTimeline` returns exactly 6 events at offsets −6, −3, 0, 3,
6, 9 hours; with severities in `[0, 1]` every per-channel multiplier lies
in `[0, 1]`; and the multipliers are a function of the input severity
list alone. -/
theorem loadTimeline_shape (now : ℤ) (cells : List WeatherCell) :
    (loadTimeline now cells).length = 6 ∧
    (loadTimeline now cells).map (·.timestamp) =
      timelineHours.map (fun offset => now + offset * 60 * 60 * 1000) ∧
    ((∀ c ∈ cells, 0 ≤ c.severity ∧ c.severity ≤ 1) →
      (loadTimeline now cells).Forall multipliersInRange) ∧
    ∀ (now' : ℤ) (cells' : List WeatherCell),
      cells.map (·.severity) = cells'.map (·.severity) →
      (loadTimeline now cells).map (·.overlayMultipliers) =
        (loadTimeline now' cells').map (·.overlayMultipliers) := by
  refine ⟨rfl, rfl, ?_, ?_⟩
  · intro h
    rw [List.forall_iff_forall_mem]
    intro e he
    rcases List.mem_map.mp he with ⟨p, _, rfl⟩
    exact timelineEventOf_inRange now cells p.1 p.2 h
  · intro now' cells' hsev
    have hlen : cells.length = cells'.length := by
      have := congrArg List.length hsev
      simpa using this
    have hfold : cells.foldl (fun acc cell => acc + cell.severity) 0 =
        cells'.foldl (fun acc cell => acc + cell.severity) 0 := by
      rw [← List.foldl_map (·.severity) (· + ·) cells 0, hsev,
        List.foldl_map (·.severity) (· + ·) cells' 0]
    have hmean : meanSeverity cells = meanSeverity cells' := by
      unfold meanSeverity
      rw [hfold, hlen]
    simp [loadTimeline, timelineEventOf, hmean]

/-- A concrete weather cell for the timeline witness. -/
def exCellA : WeatherCell :=
  { id := "w", latitude := 0, longitude := 0, status := .clear, severity := 1 }

/-- A second cell with the same severity but different identity. -/
def exCellB : WeatherCell :=
  { id := "z", latitude := 9, longitude := 9, status := .rain, severity := 1 }

/-- C9 witness: a concrete one-cell batch has all multipliers in range,
and a severity-equal batch yields identical multipliers. -/
theorem loadTimeline_shape_witness :
    (loadTimeline 0 [exCellA]).Forall multipliersInRange ∧
    (loadTimeline 0 [exCellA]).map (·.overlayMultipliers) =
      (loadTimeline 99 [exCellB]).map (·.overlayMultipliers) :=
  ⟨(loadTimeline_shape 0 [exCellA]).2.2.1 (by decide),
   (loadTimeline_shape 0 [exCellA]).2.2.2 99 [exCellB] (by decide)⟩

/-- Running minimum over a list, seeded with an optional current value. -/
def runningMin (acc : Option ℚ) (ds : List ℚ) : Option ℚ :=
  ds.foldl
    (fun m d =>
      match m with
      | none => some d
      | some m' => some (min m' d))
    acc

lemma runningMin_some (m : ℚ) (ds : List ℚ) :
    runningMin (some m) ds = some (ds.foldl min m) := by
  induction ds generalizing m with
  | nil => rfl
  | cons d ds ih => simpa [runningMin, List.foldl_cons] using ih (min m d)

lemma runningMin_none_eq_min? (ds : List ℚ) :
    runningMin none ds = ds.min? := by
  cases ds with
  | nil => rfl
  | cons d ds => simpa [runningMin, List.foldl_cons, List.min?] using runningMin_some d ds

/-- The sampling loop tracks exactly the running minimum of the sampled
distances. -/
lemma foldl_closestStep_dist (o : SatOracle) (now : ℤ) (latitude longitude : ℚ)
    (tle : TleRecord) :
    ∀ (steps : List ℕ) (acc : Option ClosestSample),
      (steps.foldl (closestStep o now latitude longitude tle) acc).map
          (·.distance) =
        runningMin (acc.map (·.distance))
          (steps.filterMap (sampleDist o latitude longitude tle)) := by
  intro steps
  induction steps with
  | nil => intro acc; rfl
  | cons step rest ih =>
    intro acc
    rw [List.foldl_cons, ih]
    rcases hg : o.geo tle step with _ | g
    · have hstep : closestStep o now latitude longitude tle acc step = acc := by
        simp [closestStep, hg]
      have hsd : sampleDist o latitude longitude tle step = none := by
        simp [sampleDist, hg]
      rw [hstep, List.filterMap_cons, hsd]
    · have hsd : sampleDist o latitude longitude tle step =
          some (o.dist latitude longitude g.latitude g.longitude) := by
        simp [sampleDist, hg]
      rw [List.filterMap_cons, hsd]
      have hrm : ∀ (m : Option ℚ) (d : ℚ) (ds : List ℚ),
          runningMin m (d :: ds) =
            runningMin
              (match m with
               | none => some d
               | some m' => some (min m' d)) ds := fun m d ds => rfl
      rw [hrm]
      have hstep : (closestStep o now latitude longitude tle acc step).map
            (·.distance) =
          match acc.map (·.distance) with
          | none => some (o.dist latitude longitude g.latitude g.longitude)
          | some m' => some (min m' (o.dist latitude longitude g.latitude g.longitude)) := by
        rcases acc with _ | c
        · simp [closestStep, hg]
        · by_cases hlt : o.dist latitude longitude g.latitude g.longitude < c.distance
          · simp [closestStep, hg, hlt, min_eq_right (le_of_lt hlt)]
          · simp [closestStep, hg, hlt, min_eq_left (le_of_not_lt hlt)]
      rw [hstep]

/-- The distance tracked by `closestApproach` is the minimum sampled
distance. -/
lemma closestApproach_dist (o : SatOracle) (now : ℤ) (latitude longitude : ℚ)
    (tle : TleRecord) :
    (closestApproach o now latitude longitude tle).map (·.distance) =
      minSampledDistance o latitude longitude tle := by
  rw [closestApproach, foldl_closestStep_dist, minSampledDistance]
  simpa using runningMin_none_eq_min? _

/-- C4: a record yields a pass exactly when it parses, at least one
sample propagates, and the minimum sampled distance is strictly below the
2500 km relevance radius; a filtered-out record simply contributes
nothing (no error value exists). -/
theorem satellitePass_relevance_filter (o : SatOracle) (now : ℤ)
    (latitude longitude : ℚ) (tle : TleRecord) :
    ((passOf o now latitude longitude tle).isSome = true ↔
      (o.parses tle = true ∧
        ∃ d, minSampledDistance o latitude longitude tle = some d ∧ d < 2500)) ∧
    computeSatellitePasses o now latitude longitude [tle] =
      (passOf o now latitude longitude tle).toList := by
  constructor
  · have hdist := closestApproach_dist o now latitude longitude tle
    rcases hp : o.parses tle with _ | _
    · simp [passOf, hp]
    · rcases hc : closestApproach o now latitude longitude tle with _ | c
      · rw [hc] at hdist
        simp [passOf, hp, hc, ← hdist]
      · rw [hc] at hdist
        by_cases hlt : c.distance < 2500
        · simp [passOf, hp, hc, hlt, ← hdist]
        · simp [passOf, hp, hc, hlt, ← hdist]
  · rcases hp : passOf o now latitude longitude tle with _ | p <;>
      simp [computeSatellitePasses, hp, List.insertionSort]

/-- The oracle for the boundary counterexample: every sample propagates
and sits at exactly 2500 km. -/
def c4Oracle : SatOracle :=
  { parses := fun _ => true
    geo := fun _ _ => some { latitude := 0, longitude := 0, height := 0 }
    dist := fun _ _ _ _ => 2500 }

/-- A concrete TLE record. -/
def exTle : TleRecord :=
  { name := "SAT X", line1 := "1 25544U", line2 := "2 25544" }

/-- C4 counterexample: a record whose minimum sampled distance is exactly
2500 km (which "does not exceed" the radius) produces no pass — the code
keeps a record only when the distance is strictly below 2500. -/
theorem satellitePass_boundary_counterexample :
    minSampledDistance c4Oracle 0 0 exTle = some 2500 ∧
    computeSatellitePasses c4Oracle 0 0 0 [exTle] = [] := by
  have hmin : minSampledDistance c4Oracle 0 0 exTle = some 2500 := by
    have hsd : sampleDist c4Oracle 0 0 exTle = fun _ => some 2500 := rfl
    have hfm : List.filterMap (fun _ : ℕ => some (2500 : ℚ)) satelliteSteps =
        List.replicate satelliteSteps.length 2500 := by
      rw [show (fun _ : ℕ => some (2500 : ℚ)) = some ∘ (fun _ : ℕ => (2500 : ℚ)) from rfl,
        List.filterMap_eq_map, List.map_const']
    have hlen : satelliteSteps.length = 121 := by
      simp [satelliteSteps, SATELLITE_LOOKAHEAD_SECONDS, SATELLITE_STEP_SECONDS]
    rw [minSampledDistance, hsd, hfm, hlen]
    show some (List.foldl min 2500 (List.replicate 120 2500)) = some 2500
    rw [foldl_min_all_eq (List.replicate 120 2500) 2500 2500 rfl
      (fun x hx => List.eq_of_mem_replicate hx)]
  refine ⟨hmin, ?_⟩
  have hca := closestApproach_dist c4Oracle 0 0 0 exTle
  rw [hmin] at hca
  rcases hc : closestApproach c4Oracle 0 0 0 exTle with _ | c
  · rw [hc] at hca
    exact Option.noConfusion hca
  · rw [hc] at hca
    have hcd : c.distance = 2500 := by simpa using hca
    have hparse : c4Oracle.parses exTle = true := rfl
    have hpass : passOf c4Oracle 0 0 0 exTle = none := by
      simp [passOf, hparse, hc, hcd]
    show (List.insertionSort passDistLe
        (List.filterMap (passOf c4Oracle 0 0 0) [exTle])).take 5 = []
    rw [List.filterMap_cons_none hpass]
    rfl

/-- Once the tracked sample already sits at the constant sampled
distance, further constant-distance samples never replace it (the
comparison is strict). -/
lemma foldl_closestStep_keep (o : SatOracle) (now : ℤ) (latitude longitude : ℚ)
    (tle : TleRecord) (d : ℚ)
    (hsd : ∀ step, sampleDist o latitude longitude tle step = some d) :
    ∀ (steps : List ℕ) (c : ClosestSample), c.distance = d →
      steps.foldl (closestStep o now latitude longitude tle) (some c) = some c := by
  intro steps
  induction steps with
  | nil => intro c _; rfl
  | cons s rest ih =>
    intro c hc
    have hstep : closestStep o now latitude longitude tle (some c) s = some c := by
      have hg := hsd s
      rcases hgeo : o.geo tle s with _ | g
      · rw [sampleDist, hgeo] at hg
        exact Option.noConfusion hg
      · rw [sampleDist, hgeo] at hg
        have hg' : o.dist latitude longitude g.latitude g.longitude = d := by
          simpa using hg
        simp [closestStep, hgeo, hg', hc]
    rw [List.foldl_cons, hstep]
    exact ih c hc

/-- The sample steps start at 0. -/
lemma satelliteSteps_eq :
    satelliteSteps = 0 :: (List.range 120).map (fun n => (n + 1) * 60) := by
  show (List.range (SATELLITE_LOOKAHEAD_SECONDS / SATELLITE_STEP_SECONDS + 1)).map
      (· * 60) = _
  have h121 : SATELLITE_LOOKAHEAD_SECONDS / SATELLITE_STEP_SECONDS + 1 = 121 := by
    norm_num [SATELLITE_LOOKAHEAD_SECONDS, SATELLITE_STEP_SECONDS]
  rw [h121, show (121 : ℕ) = 120 + 1 from rfl, List.range_succ_eq_map]
  simp [List.map_map]

/-- When every sample propagates to the same subpoint, the loop keeps the
very first sample. -/
lemma closestApproach_const (o : SatOracle) (now : ℤ) (latitude longitude : ℚ)
    (tle : TleRecord) (g : Subpoint)
    (hgeo : ∀ step, o.geo tle step = some g) :
    closestApproach o now latitude longitude tle =
      some { distance := o.dist latitude longitude g.latitude g.longitude
             time := now
             altitudeKm := if g.height ≠ 0 then some (g.height / 1000) else none } := by
  have hsd : ∀ step, sampleDist o latitude longitude tle step =
      some (o.dist latitude longitude g.latitude g.longitude) := fun step => by
    simp [sampleDist, hgeo step]
  rw [closestApproach, satelliteSteps_eq, List.foldl_cons]
  have h0 : closestStep o now latitude longitude tle none 0 =
      some { distance := o.dist latitude longitude g.latitude g.longitude
             time := now
             altitudeKm := if g.height ≠ 0 then some (g.height / 1000) else none } := by
    simp [closestStep, hgeo 0]
  rw [h0]
  exact foldl_closestStep_keep o now latitude longitude tle _ hsd _ _ rfl

/-- Sorted lists with pairwise-distinct rounded distances that are
permutations of each other are equal. -/
lemma sorted_perm_distinct_eq :
    ∀ {l₁ l₂ : List SatellitePass}, l₁.Perm l₂ →
      l₁.Sorted passDistLe → l₂.Sorted passDistLe →
      l₁.Pairwise (fun a b => a.distanceKm ≠ b.distanceKm) → l₁ = l₂ := by
  intro l₁
  induction l₁ with
  | nil => intro l₂ hp _ _ _; exact (hp.symm.eq_nil).symm
  | cons a t₁ ih =>
    intro l₂ hp hs₁ hs₂ hd
    cases l₂ with
    | nil => exact absurd hp.eq_nil (by simp)
    | cons b t₂ =>
      obtain ⟨ha1, hst₁⟩ := List.sorted_cons.mp hs₁
      obtain ⟨hb2, hst₂⟩ := List.sorted_cons.mp hs₂
      obtain ⟨hda, hdt⟩ := List.pairwise_cons.mp hd
      have hab : a = b := by
        by_contra hne
        have hbt : b ∈ t₁ := by
          rcases List.mem_cons.mp (hp.symm.subset (List.mem_cons_self b t₂)) with h | h
          · exact absurd h.symm hne
          · exact h
        have hat : a ∈ t₂ := by
          rcases List.mem_cons.mp (hp.subset (List.mem_cons_self a t₁)) with h | h
          · exact absurd h hne
          · exact h
        exact hda b hbt (le_antisymm (ha1 b hbt) (hb2 a hat))
      subst hab
      have ht : t₁.Perm t₂ := hp.cons_inv
      rw [ih ht hst₁ hst₂ hdt]

/-- C6: the pass list is sorted ascending by `distanceKm`, holds at most
5 entries, and — when the produced candidates have pairwise distinct
distances — does not depend on the order in which the records are
processed. -/
theorem computeSatellitePasses_sorted (o : SatOracle) (now : ℤ)
    (latitude longitude : ℚ) (tles : List TleRecord) :
    (computeSatellitePasses o now latitude longitude tles).Sorted passDistLe ∧
    (computeSatellitePasses o now latitude longitude tles).length ≤ 5 ∧
    ∀ tles' : List TleRecord, tles.Perm tles' →
      (tles.filterMap (passOf o now latitude longitude)).Pairwise
        (fun a b => a.distanceKm ≠ b.distanceKm) →
      computeSatellitePasses o now latitude longitude tles =
        computeSatellitePasses o now latitude longitude tles' := by
  refine ⟨?_, ?_, ?_⟩
  · exact List.Pairwise.sublist (List.take_sublist _ _)
      (List.sorted_insertionSort passDistLe _)
  · rw [computeSatellitePasses, List.length_take]
    exact min_le_left _ _
  · intro tles' hp hd
    have hfm := hp.filterMap (passOf o now latitude longitude)
    have hperm : (List.insertionSort passDistLe
          (tles.filterMap (passOf o now latitude longitude))).Perm
        (List.insertionSort passDistLe
          (tles'.filterMap (passOf o now latitude longitude))) :=
      ((List.perm_insertionSort _ _).trans hfm).trans
        (List.perm_insertionSort _ _).symm
    have hd1 := hd.perm
      (List.perm_insertionSort passDistLe
        (tles.filterMap (passOf o now latitude longitude))).symm
      fun h => Ne.symm h
    have heq := sorted_perm_distinct_eq hperm
      (List.sorted_insertionSort passDistLe _)
      (List.sorted_insertionSort passDistLe _) hd1
    rw [computeSatellitePasses, computeSatellitePasses, heq]

/-- A first concrete TLE record. -/
def exTleA : TleRecord := { name := "ALPHA", line1 := "1 00001", line2 := "2 00001" }

/-- A second concrete TLE record. -/
def exTleB : TleRecord := { name := "BETA", line1 := "1 00002", line2 := "2 00002" }

/-- An oracle whose two known records sit at distinct constant distances
(10 km and 20 km). -/
def c6Oracle : SatOracle :=
  { parses := fun _ => true
    geo := fun tle _ =>
      some { latitude := if tle.name = "ALPHA" then 10 else 20
             longitude := 0
             height := 0 }
    dist := fun _ _ glat _ => glat }

/-- The pass the 10 km record produces. -/
def exPassA : SatellitePass :=
  { name := "ALPHA", noradId := some 1, distanceKm := 10
    passTime := 0, altitudeKm := none }

/-- The pass the 20 km record produces. -/
def exPassB : SatellitePass :=
  { name := "BETA", noradId := some 2, distanceKm := 20
    passTime := 0, altitudeKm := none }

lemma c6_passA : passOf c6Oracle 0 0 0 exTleA = some exPassA := by
  have hca := closestApproach_const c6Oracle 0 0 0 exTleA
    { latitude := 10, longitude := 0, height := 0 } (fun _ => rfl)
  simp only [passOf, hca]
  norm_num [exPassA]
  have h1 : c6Oracle.dist 0 0 10 0 < 2500 := by norm_num [c6Oracle]
  have h2 : jsTrim exTleA.name = "ALPHA" := by decide
  have h3 : parseInt10 (jsSlice exTleA.line1 2 7) = some 1 := by decide
  have h4 : toFixed1 (c6Oracle.dist 0 0 10 0) = 10 := by
    norm_num [toFixed1, c6Oracle]
  exact ⟨h1, h1, h2, h3, h4⟩

lemma c6_passB : passOf c6Oracle 0 0 0 exTleB = some exPassB := by
  have hca := closestApproach_const c6Oracle 0 0 0 exTleB
    { latitude := 20, longitude := 0, height := 0 } (fun _ => rfl)
  simp only [passOf, hca]
  norm_num [exPassB]
  have h1 : c6Oracle.dist 0 0 20 0 < 2500 := by norm_num [c6Oracle]
  have h2 : jsTrim exTleB.name = "BETA" := by decide
  have h3 : parseInt10 (jsSlice exTleB.line1 2 7) = some 2 := by decide
  have h4 : toFixed1 (c6Oracle.dist 0 0 20 0) = 20 := by
    norm_num [toFixed1, c6Oracle]
  exact ⟨h1, h1, h2, h3, h4⟩

lemma c6_filterMap :
    [exTleA, exTleB].filterMap (passOf c6Oracle 0 0 0) = [exPassA, exPassB] := by
  rw [List.filterMap_cons_some c6_passA, List.filterMap_cons_some c6_passB,
    List.filterMap_nil]

/-- C6 witness: two records at distinct constant distances give the same
pass list regardless of processing order. -/
theorem computeSatellitePasses_sorted_witness :
    computeSatellitePasses c6Oracle 0 0 0 [exTleA, exTleB] =
      computeSatellitePasses c6Oracle 0 0 0 [exTleB, exTleA] :=
  (computeSatellitePasses_sorted c6Oracle 0 0 0 [exTleA, exTleB]).2.2
    [exTleB, exTleA] (by decide)
    (by
      rw [c6_filterMap]
      refine List.Pairwise.cons ?_ (List.pairwise_singleton _ _)
      intro b hb
      rw [List.mem_singleton] at hb
      subst hb
      norm_num [exPassA, exPassB])

/-- The tie oracle: both records sit at exactly 100 km. -/
def c6TieOracle : SatOracle :=
  { parses := fun _ => true
    geo := fun _ _ => some { latitude := 100, longitude := 0, height := 0 }
    dist := fun _ _ glat _ => glat }

/-- The tied pass for the first record. -/
def exPassTieA : SatellitePass :=
  { name := "ALPHA", noradId := some 1, distanceKm := 100
    passTime := 0, altitudeKm := none }

/-- The tied pass for the second record. -/
def exPassTieB : SatellitePass :=
  { name := "BETA", noradId := some 2, distanceKm := 100
    passTime := 0, altitudeKm := none }

lemma c6_tie_passA : passOf c6TieOracle 0 0 0 exTleA = some exPassTieA := by
  have hca := closestApproach_const c6TieOracle 0 0 0 exTleA
    { latitude := 100, longitude := 0, height := 0 } (fun _ => rfl)
  simp only [passOf, hca]
  norm_num [exPassTieA]
  have h1 : c6TieOracle.dist 0 0 100 0 < 2500 := by norm_num [c6TieOracle]
  have h2 : jsTrim exTleA.name = "ALPHA" := by decide
  have h3 : parseInt10 (jsSlice exTleA.line1 2 7) = some 1 := by decide
  have h4 : toFixed1 (c6TieOracle.dist 0 0 100 0) = 100 := by
    norm_num [toFixed1, c6TieOracle]
  exact ⟨h1, h1, h2, h3, h4⟩

lemma c6_tie_passB : passOf c6TieOracle 0 0 0 exTleB = some exPassTieB := by
  have hca := closestApproach_const c6TieOracle 0 0 0 exTleB
    { latitude := 100, longitude := 0, height := 0 } (fun _ => rfl)
  simp only [passOf, hca]
  norm_num [exPassTieB]
  have h1 : c6TieOracle.dist 0 0 100 0 < 2500 := by norm_num [c6TieOracle]
  have h2 : jsTrim exTleB.name = "BETA" := by decide
  have h3 : parseInt10 (jsSlice exTleB.line1 2 7) = some 2 := by decide
  have h4 : toFixed1 (c6TieOracle.dist 0 0 100 0) = 100 := by
    norm_num [toFixed1, c6TieOracle]
  exact ⟨h1, h1, h2, h3, h4⟩

/-- C6 counterexample: with two records tied at the same rounded
distance, the output order follows the input order — swapping the input
records swaps the result, so the final ordering does depend on the order
in which records are processed. -/
theorem computeSatellitePasses_order_counterexample :
    (computeSatellitePasses c6TieOracle 0 0 0 [exTleA, exTleB]).map (·.name) =
      ["ALPHA", "BETA"] ∧
    (computeSatellitePasses c6TieOracle 0 0 0 [exTleB, exTleA]).map (·.name) =
      ["BETA", "ALPHA"] := by
  have hfm1 : [exTleA, exTleB].filterMap (passOf c6TieOracle 0 0 0) =
      [exPassTieA, exPassTieB] := by
    rw [List.filterMap_cons_some c6_tie_passA,
      List.filterMap_cons_some c6_tie_passB, List.filterMap_nil]
  have hfm2 : [exTleB, exTleA].filterMap (passOf c6TieOracle 0 0 0) =
      [exPassTieB, exPassTieA] := by
    rw [List.filterMap_cons_some c6_tie_passB,
      List.filterMap_cons_some c6_tie_passA, List.filterMap_nil]
  have hle1 : passDistLe exPassTieA exPassTieB := le_refl (100 : ℚ)
  have hle2 : passDistLe exPassTieB exPassTieA := le_refl (100 : ℚ)
  constructor
  · rw [computeSatellitePasses, hfm1]
    rw [show List.insertionSort passDistLe [exPassTieA, exPassTieB] =
      List.orderedInsert passDistLe exPassTieA [exPassTieB] from rfl]
    rw [List.orderedInsert, if_pos hle1]
    rfl
  · rw [computeSatellitePasses, hfm2]
    rw [show List.insertionSort passDistLe [exPassTieB, exPassTieA] =
      List.orderedInsert passDistLe exPassTieB [exPassTieA] from rfl]
    rw [List.orderedInsert, if_pos hle2]
    rfl

instance : IsTotal HeatmapPoint intensityDesc :=
  ⟨fun a b => le_total b.intensity a.intensity⟩

instance : IsTrans HeatmapPoint intensityDesc :=
  ⟨fun _ _ _ h h' => le_trans h' h⟩

/-- The six heatmap points named in the specification's route-arc test,
with intensities [.9, .5, .7, .3, .6, .2]. -/
def c2Points : List HeatmapPoint :=
  [ { id := "p0", name := "A", latitude := 0, longitude := 0, intensity := 9/10 },
    { id := "p1", name := "B", latitude := 0, longitude := 0, intensity := 5/10 },
    { id := "p2", name := "C", latitude := 0, longitude := 0, intensity := 7/10 },
    { id := "p3", name := "D", latitude := 0, longitude := 0, intensity := 3/10 },
    { id := "p4", name := "E", latitude := 0, longitude := 0, intensity := 6/10 },
    { id := "p5", name := "F", latitude := 0, longitude := 0, intensity := 2/10 } ]

unseal Rat.add Rat.mul Rat.inv Rat.sub in
/-- C2 (amended): `buildRouteArcs` keeps the top `min(count, 6)` points
sorted descending by intensity but emits one arc only for each index
`i < kept − 1` (the last kept index gets none), connecting `sorted[i]` to
`sorted[(i+2) mod kept]` with magnitude the endpoint average; on the
specification's six intensities, the pair sequence is `i → (i+2) mod 6`
for `i = 0..4` only. -/
theorem buildRouteArcs_amended :
    (∀ points : List HeatmapPoint, 2 ≤ points.length →
      List.Sorted intensityDesc (routeArcKept points) ∧
      (routeArcKept points).Subperm points ∧
      (routeArcKept points).length = min points.length 6 ∧
      buildRouteArcs points =
        (List.range ((routeArcKept points).length - 1)).map
          (routeArcAt (routeArcKept points))) ∧
    (buildRouteArcs c2Points).map (fun a => (a.src.name, a.dst.name)) =
      [("A", "E"), ("C", "B"), ("E", "D"), ("B", "F"), ("D", "A")] := by
  constructor
  · intro points h
    refine ⟨?_, ?_, ?_, ?_⟩
    · exact List.Pairwise.sublist (List.take_sublist 6 _)
        (List.sorted_insertionSort intensityDesc points)
    · exact ((List.take_sublist 6 _).subperm).trans
        (List.perm_insertionSort intensityDesc points).subperm
    · rw [routeArcKept, List.length_take, List.length_insertionSort, min_comm]
    · rw [buildRouteArcs, if_neg (by omega)]
  · decide

unseal Rat.add Rat.mul Rat.inv Rat.sub in
/-- C2 witness: the amended description instantiated on the six
specification points. -/
theorem buildRouteArcs_amended_witness :
    List.Sorted intensityDesc (routeArcKept c2Points) ∧
    (routeArcKept c2Points).Subperm c2Points ∧
    (routeArcKept c2Points).length = min c2Points.length 6 ∧
    buildRouteArcs c2Points =
      (List.range ((routeArcKept c2Points).length - 1)).map
        (routeArcAt (routeArcKept c2Points)) :=
  buildRouteArcs_amended.1 c2Points (by decide)

unseal Rat.add Rat.mul Rat.inv Rat.sub in
/-- C2 counterexample: six kept points produce only five arcs — there is
no arc for the last kept index, so the claimed "one arc for each kept
index" pairing (which would give six) fails. -/
theorem buildRouteArcs_counterexample :
    (routeArcKept c2Points).length = 6 ∧
    (buildRouteArcs c2Points).length = 5 ∧
    (buildRouteArcs c2Points).map (fun a => a.src.name) =
      ["A", "C", "E", "B", "D"] := by
  decide

/-- The parser loop over a window-aligned line list collects the records
of the accepting windows, truncated by the 6-record cap. -/
lemma tleLoop_join :
    ∀ (bs : List (List String)) (acc : List TleRecord),
      (∀ b ∈ bs, b.length = 3) → acc.length < 6 →
      tleLoop bs.flatten acc = (acc ++ bs.filterMap windowRecord).take 6 := by
  intro bs
  induction bs with
  | nil =>
    intro acc _ hacc
    simp only [List.flatten_nil, List.filterMap_nil, List.append_nil]
    rw [List.take_of_length_le (le_of_lt hacc)]
    rfl
  | cons b bs ih =>
    intro acc h3 hacc
    have hb : b.length = 3 := h3 b (by simp)
    obtain ⟨n, l1, l2, rfl⟩ : ∃ n l1 l2, b = [n, l1, l2] := by
      rcases b with _ | ⟨n, b⟩
      · simp at hb
      rcases b with _ | ⟨l1, b⟩
      · simp at hb
      rcases b with _ | ⟨l2, b⟩
      · simp at hb
      rcases b with _ | ⟨x, b⟩
      · exact ⟨n, l1, l2, rfl⟩
      · simp at hb
    have hjoin : ([n, l1, l2] :: bs).flatten = n :: l1 :: l2 :: bs.flatten := by simp
    rw [hjoin]
    show (let sets' :=
        if jsStartsWith l1 "1 " && jsStartsWith l2 "2 " then
          acc ++ [{ name := n, line1 := l1, line2 := l2 }]
        else acc
      if SATELLITE_SAMPLE_COUNT ≤ sets'.length then sets'
      else tleLoop bs.flatten sets') = _
    have hwr : windowRecord [n, l1, l2] =
        if jsStartsWith l1 "1 " && jsStartsWith l2 "2 " then
          some { name := n, line1 := l1, line2 := l2 }
        else none := rfl
    rcases hcond : jsStartsWith l1 "1 " && jsStartsWith l2 "2 " with _ | _
    · simp only [hcond, if_false, Bool.false_eq_true]
      have h6 : ¬ (SATELLITE_SAMPLE_COUNT ≤ acc.length) := by
        simp only [SATELLITE_SAMPLE_COUNT]
        omega
      have hnone : windowRecord [n, l1, l2] = none := by
        rw [hwr, hcond]
        simp
      rw [if_neg h6, ih acc (fun x hx => h3 x (by simp [hx])) hacc,
        List.filterMap_cons_none hnone]
    · simp only [hcond, if_true]
      have hsome : windowRecord [n, l1, l2] =
          some { name := n, line1 := l1, line2 := l2 } := by
        rw [hwr, hcond]
        simp
      rw [List.filterMap_cons_some hsome]
      by_cases h6 : SATELLITE_SAMPLE_COUNT ≤
          (acc ++ [({ name := n, line1 := l1, line2 := l2 } : TleRecord)]).length
      · rw [if_pos h6]
        have hlen : (acc ++ [({ name := n, line1 := l1, line2 := l2 } : TleRecord)]).length = 6 := by
          simp only [SATELLITE_SAMPLE_COUNT, List.length_append, List.length_singleton] at h6 ⊢
          omega
        have hassoc : acc ++ ({ name := n, line1 := l1, line2 := l2 } : TleRecord) ::
            bs.filterMap windowRecord =
            (acc ++ [{ name := n, line1 := l1, line2 := l2 }]) ++ bs.filterMap windowRecord := by
          simp
        rw [hassoc, List.take_left' hlen]
      · rw [if_neg h6]
        have hlt : (acc ++ [({ name := n, line1 := l1, line2 := l2 } : TleRecord)]).length < 6 := by
          simp only [SATELLITE_SAMPLE_COUNT, List.length_append, List.length_singleton] at h6 ⊢
          omega
        rw [ih _ (fun x hx => h3 x (by simp [hx])) hlt]
        simp

/-- C3 (amended): the parser scans the trimmed nonempty lines; when the
input decomposes into whole 3-line windows (each well-formed triplet
aligned to a window boundary), it returns, verbatim, the records of the
first at most 6 accepting windows.  Misaligned garbage (or more than 6
triplets) breaks the exactly-N guarantee. -/
theorem parseTleSets_windowed :
    (∀ text, parseTleSets text = tleLoop (cleanLines text) []) ∧
    ∀ (bs : List (List String)), (∀ b ∈ bs, b.length = 3) →
      tleLoop bs.flatten [] = (bs.filterMap windowRecord).take 6 := by
  refine ⟨fun text => rfl, fun bs h3 => ?_⟩
  simpa using tleLoop_join bs [] h3 (by norm_num)

/-- C3 witness: a garbage window followed by a well-formed triplet window
parses to exactly that triplet. -/
theorem parseTleSets_windowed_witness :
    tleLoop [["garb1", "garb2", "garb3"],
             ["ISS (ZARYA)", "1 25544U", "2 25544"]].flatten [] =
      ([["garb1", "garb2", "garb3"],
        ["ISS (ZARYA)", "1 25544U", "2 25544"]].filterMap windowRecord).take 6 :=
  parseTleSets_windowed.2 _ (by decide)

/-- C3 counterexample: one garbage line before a well-formed triplet
misaligns the fixed windows, and the parser returns 0 records instead of
the claimed exactly 1. -/
theorem parseTleSets_counterexample :
    cleanLines "garbage\nISS (ZARYA)\n1 25544U\n2 25544" =
      ["garbage", "ISS (ZARYA)", "1 25544U", "2 25544"] ∧
    jsStartsWith "1 25544U" "1 " = true ∧
    jsStartsWith "2 25544" "2 " = true ∧
    parseTleSets "garbage\nISS (ZARYA)\n1 25544U\n2 25544" = [] := by
  refine ⟨by decide, by decide, by decide, by decide⟩

/-- C8: the haversine distance is symmetric, zero on identical points,
and the (0°,0°)–(0°,180°) distance is π·6371.0088 km to within 1 km
(here: exactly). -/
theorem haversine_properties :
    (∀ lat1 lon1 lat2 lon2 : ℝ,
      haversineDistance lat1 lon1 lat2 lon2 = haversineDistance lat2 lon2 lat1 lon1) ∧
    (∀ lat lon : ℝ, haversineDistance lat lon lat lon = 0) ∧
    |haversineDistance 0 0 0 180 - Real.pi * 6371.0088| ≤ 1 := by
  have key : ∀ x y : ℝ,
      Real.sin ((x - y) * Real.pi / 180 / 2) ^ 2 =
        Real.sin ((y - x) * Real.pi / 180 / 2) ^ 2 := by
    intro x y
    rw [show (x - y) * Real.pi / 180 / 2 = -((y - x) * Real.pi / 180 / 2) from by ring,
      Real.sin_neg]
    exact neg_sq _
  refine ⟨?_, ?_, ?_⟩
  · intro lat1 lon1 lat2 lon2
    simp only [haversineDistance, toRadians]
    rw [key lat2 lat1, key lon2 lon1,
      mul_comm (Real.cos (lat1 * Real.pi / 180)) (Real.cos (lat2 * Real.pi / 180))]
  · intro lat lon
    simp only [haversineDistance, toRadians]
    have h0 : (lat - lat) * Real.pi / 180 / 2 = 0 := by ring
    have h0' : (lon - lon) * Real.pi / 180 / 2 = 0 := by ring
    rw [h0, h0', Real.sin_zero]
    norm_num
    right
    rw [atan2, if_pos one_pos]
    norm_num [Real.arctan_zero]
  · simp only [haversineDistance, toRadians]
    have ha : Real.sin ((0 - 0) * Real.pi / 180 / 2) ^ 2 +
        Real.cos ((0 : ℝ) * Real.pi / 180) * Real.cos ((0 : ℝ) * Real.pi / 180) *
          Real.sin ((180 - 0) * Real.pi / 180 / 2) ^ 2 = 1 := by
      have h1 : ((0 : ℝ) - 0) * Real.pi / 180 / 2 = 0 := by ring
      have h2 : ((180 : ℝ) - 0) * Real.pi / 180 / 2 = Real.pi / 2 := by ring
      have h3 : (0 : ℝ) * Real.pi / 180 = 0 := by ring
      rw [h1, h2, h3, Real.sin_zero, Real.cos_zero, Real.sin_pi_div_two]
      norm_num
    rw [ha, show (1 : ℝ) - 1 = 0 from by norm_num, Real.sqrt_one, Real.sqrt_zero]
    have hat : atan2 1 0 = Real.pi / 2 := by
      rw [atan2, if_neg (lt_irrefl 0),
        if_neg (fun h => lt_irrefl 0 h.1),
        if_neg (fun h => lt_irrefl 0 h.1),
        if_pos ⟨rfl, one_pos⟩]
    rw [hat, show EARTH_MEAN_RADIUS_KM = 6371.0088 from rfl,
      show (6371.0088 : ℝ) * (2 * (Real.pi / 2)) - Real.pi * 6371.0088 = 0 from by ring,
      abs_zero]
    norm_num

/-- A trivial oracle for the handler examples (no sample ever
propagates). -/
def c1Oracle : SatOracle :=
  { parses := fun _ => true, geo := fun _ _ => none, dist := fun _ _ _ _ => 0 }

/-- Fetch outcomes where every upstream resolves healthy except the
reverse-geocoding response, which resolves not ok. -/
def c1Fetches : Fetches :=
  { reverse := .notOk
    weather := .ok {}
    topo := .ok []
    usgs := .ok []
    tle := .ok "" }

/-- C1 counterexample: with every upstream healthy except the
reverse-geocoding fetch (which resolves, but not ok), the handler
returns the 502 error response — the single upstream failure is
propagated as a fatal error. -/
theorem handler_reverse_failure_counterexample :
    handleGet c1Oracle 0 35 139 c1Fetches =
      .error { status := 502, error := "Failed to load location intelligence" } := rfl

/-- C1 (amended): a rejected fetch (network failure or body-parse throw)
of any of the five upstreams is fatal — the `Promise.all` throws and the
handler returns the 502 error for everything.  Among resolved
responses, a non-ok reverse-geocoding or weather response is likewise
fatal, while non-ok TLE, seismic or elevation responses behave exactly
like empty/default payloads, degrading only their own category.  The
handler returns a success body exactly when no fetch rejects and the
reverse-geocoding and weather responses are ok. -/
theorem handler_error_propagation (o : SatOracle) (now : ℤ)
    (latitude longitude : ℚ) (f : Fetches) :
    ((∃ b, handleGet o now latitude longitude f = .ok b) ↔
      f.reverse.isOk = true ∧ f.weather.isOk = true ∧
      f.topo.isRejected = false ∧ f.usgs.isRejected = false ∧
      f.tle.isRejected = false) ∧
    handleGet o now latitude longitude { f with reverse := .notOk } =
      .error { status := 502, error := "Failed to load location intelligence" } ∧
    handleGet o now latitude longitude { f with weather := .notOk } =
      .error { status := 502, error := "Failed to load location intelligence" } ∧
    handleGet o now latitude longitude { f with reverse := .rejected } =
      .error { status := 502, error := "Failed to load location intelligence" } ∧
    handleGet o now latitude longitude { f with weather := .rejected } =
      .error { status := 502, error := "Failed to load location intelligence" } ∧
    handleGet o now latitude longitude { f with topo := .rejected } =
      .error { status := 502, error := "Failed to load location intelligence" } ∧
    handleGet o now latitude longitude { f with usgs := .rejected } =
      .error { status := 502, error := "Failed to load location intelligence" } ∧
    handleGet o now latitude longitude { f with tle := .rejected } =
      .error { status := 502, error := "Failed to load location intelligence" } ∧
    handleGet o now latitude longitude { f with tle := .notOk } =
      handleGet o now latitude longitude { f with tle := .ok "" } ∧
    handleGet o now latitude longitude { f with usgs := .notOk } =
      handleGet o now latitude longitude { f with usgs := .ok [] } ∧
    handleGet o now latitude longitude { f with topo := .notOk } =
      handleGet o now latitude longitude { f with topo := .ok [] } := by
  rcases f with ⟨rev, wea, topo, usgs, tle⟩
  rcases rev with _ | _ | rv <;> rcases wea with _ | _ | wp <;>
    rcases topo with _ | _ | tp <;> rcases usgs with _ | _ | us <;>
    rcases tle with _ | _ | tl <;>
    simp [handleGet, FetchOutcome.isRejected, FetchOutcome.isOk,
      FetchOutcome.toOption]

end Hellsphere
